import Mathlib

/-!
Verification of the NeuralStark document ingestion, retrieval and index
robustness subsystems, shallowly embedded from the Python sources
(backend/celery_app.py, backend/main.py, backend/chromadb_fix.py,
backend/chromadb_robustness.py, neuralstark/watcher.py, backend/config.py).

External collaborators (extractor, text splitter, embedder, reranker,
vector store, filesystem, LLM) are abstracted as environment parameters;
error cases of those collaborators are modelled as explicit outcomes.
-/

namespace NeuralStark

/-! ### Python string helpers

The source uses Python truthiness on strings and Optional values,
str.strip(), os.path.basename and str.startswith.  These are modelled on
the character list so that every definition evaluates by kernel reduction.
-/

/-- Python whitespace for str.strip(): space, tab, LF, VT, FF, CR. -/
def pyIsSpace (c : Char) : Bool :=
  c.toNat = 32 || c.toNat = 9 || c.toNat = 10 || c.toNat = 11 || c.toNat = 12 || c.toNat = 13

/-- Python str.strip(): remove leading and trailing whitespace. -/
def pyStrip (s : String) : String :=
  ⟨((s.data.dropWhile pyIsSpace).reverse.dropWhile pyIsSpace).reverse⟩

/-- Truthiness of a Python Optional[str]: None and the empty string are falsy. -/
def pyTruthy : Option String → Bool
  | none => false
  | some s => s ≠ ""

/-- The filter applied to chunks and retrieved page contents in the source:
Python `text and text.strip()` is truthy iff the text is nonempty and not
whitespace-only. -/
def keepChunk (s : String) : Bool :=
  s ≠ "" && pyStrip s ≠ ""

/-- Model of Python str.startswith, on character lists. -/
def listStarts : List Char → List Char → Bool
  | [], _ => true
  | _ :: _, [] => false
  | a :: as, b :: bs => a = b && listStarts as bs

/-- Model of s.startswith(pre). -/
def strStarts (s pre : String) : Bool :=
  listStarts pre.data s.data

/-- Model of os.path.basename: the suffix after the last path separator. -/
def baseName (s : String) : String :=
  ⟨((s.data.reverse.takeWhile (fun c => c ≠ '/')).reverse)⟩

/-- One step of Python dict.fromkeys insertion: append the key if absent. -/
def insertIfAbsent (acc : List String) (x : String) : List String :=
  if x ∈ acc then acc else acc ++ [x]

/-- Model of list(dict.fromkeys(l)): duplicates removed, first-occurrence
order preserved. -/
def dedupFirst (l : List String) : List String :=
  l.foldl insertIfAbsent []

/-! ### Configuration (backend/config.py defaults) -/

/-- The configuration fields of backend/config.py used by the embedded
subsystems, with their default values in defaultSettings. -/
structure Settings where
  RETRIEVAL_K : Nat
  RETRIEVAL_SCORE_THRESHOLD : ℚ
  RERANKER_TOP_K : Nat
  CHUNK_SIZE : Nat
  CHUNK_OVERLAP : Nat
  INTERNAL_KNOWLEDGE_BASE_PATH : String
  EXTERNAL_KNOWLEDGE_BASE_PATH : String

def defaultSettings : Settings :=
  { RETRIEVAL_K := 10
    RETRIEVAL_SCORE_THRESHOLD := 3 / 10
    RERANKER_TOP_K := 5
    CHUNK_SIZE := 1200
    CHUNK_OVERLAP := 250
    INTERNAL_KNOWLEDGE_BASE_PATH := "/app/backend/knowledge_base/internal"
    EXTERNAL_KNOWLEDGE_BASE_PATH := "/app/backend/knowledge_base/external" }

/-! ### Ingestion pipeline (backend/celery_app.py) -/

/-- Chunk metadata as built by process_document_task.  The batch field is
present only on the batched (more than 1000 chunks) path. -/
structure ChunkMeta where
  source : String
  file_name : String
  event_type : String
  timestamp : Int
  source_type : String
  batch : Option Nat
  chunk_index : Nat
deriving DecidableEq

/-- One vector_store.add_texts call: parallel lists of chunk texts and
metadata dictionaries. -/
structure AddTextsCall where
  texts : List String
  metadatas : List ChunkMeta
deriving DecidableEq

/-- External collaborators of the ingestion task.  parse_document returns
None on any extraction failure (document_parser.py catches all parser
exceptions internally); delete_ok and add_texts_ok model whether the
vector store delete and add_texts operations raise. -/
structure IngestEnv where
  parse_document : String → Option String
  split_text : String → List String
  abspath : String → String
  getmtime : String → Int
  delete_ok : Bool
  add_texts_ok : Bool

/-- The source_type derivation of process_document_task: internal or
external when the normalized path starts with the corresponding watched
root, unknown otherwise. -/
def sourceTypeFor (s : Settings) (env : IngestEnv) (normalized : String) : String :=
  if strStarts normalized (env.abspath s.INTERNAL_KNOWLEDGE_BASE_PATH) then "internal"
  else if strStarts normalized (env.abspath s.EXTERNAL_KNOWLEDGE_BASE_PATH) then "external"
  else "unknown"

/-- Python range(0, n, step) for positive literal step. -/
def pyRangeStep (n step : Nat) : List Nat :=
  (List.range ((n + step - 1) / step)).map (fun b => b * step)

/-- One chunk metadata dictionary as built in process_document_task. -/
def mkChunkMeta (env : IngestEnv) (file_path normalized event_type source_type : String)
    (batch : Option Nat) (chunk_index : Nat) : ChunkMeta :=
  { source := normalized
    file_name := baseName file_path
    event_type := event_type
    timestamp := env.getmtime file_path
    source_type := source_type
    batch := batch
    chunk_index := chunk_index }

/-- The batched indexing loop (documents with more than 1000 chunks):
for i in range(0, len(texts), 100), slice texts[i:i+100] and build one
metadata per slice element with chunk_index i + j and batch i / 100. -/
def batchedAddTextsCalls (env : IngestEnv) (file_path normalized event_type source_type : String)
    (texts : List String) : List AddTextsCall :=
  (pyRangeStep texts.length 100).map fun i =>
    let batch_texts := (texts.drop i).take 100
    { texts := batch_texts
      metadatas := (List.range batch_texts.length).map fun j =>
        mkChunkMeta env file_path normalized event_type source_type (some (i / 100)) (i + j) }

/-- The single add_texts call of the non-batched path, one metadata per
chunk with chunk_index i. -/
def singleAddTextsCall (env : IngestEnv) (file_path normalized event_type source_type : String)
    (texts : List String) : AddTextsCall :=
  { texts := texts
    metadatas := (List.range texts.length).map fun i =>
      mkChunkMeta env file_path normalized event_type source_type none i }

/-- Job outcomes of process_document_task / process_document_sync:
the returned status dictionaries, a raised self.retry, or the sync
fallback error status. -/
inductive TaskOutcome where
  | ok_deleted
  | ok_indexed (chunks_indexed : Nat)
  | ok_no_content
  | ok_failed_extraction
  | retry_raised
  | sync_error
deriving DecidableEq

/-- A run of an ingestion job: its outcome and the add_texts calls it
issued (on the success path). -/
structure TaskRun where
  outcome : TaskOutcome
  add_texts_calls : List AddTextsCall
deriving DecidableEq

/-- Shallow embedding of backend/celery_app.py process_document_task.
The best-effort delete on the modified path only logs its failure and
does not change control flow, so it does not appear in the outcome. -/
def process_document_task (s : Settings) (env : IngestEnv)
    (file_path event_type : String) : TaskRun :=
  let normalized := env.abspath file_path
  let source_type := sourceTypeFor s env normalized
  if event_type = "deleted" then
    if env.delete_ok then ⟨.ok_deleted, []⟩ else ⟨.retry_raised, []⟩
  else
    let extracted_text := env.parse_document file_path
    if pyTruthy extracted_text then
      let texts := (env.split_text (extracted_text.getD "")).filter keepChunk
      if texts.isEmpty then ⟨.ok_no_content, []⟩
      else
        let calls :=
          if texts.length > 1000 then
            batchedAddTextsCalls env file_path normalized event_type source_type texts
          else
            [singleAddTextsCall env file_path normalized event_type source_type texts]
        if env.add_texts_ok then ⟨.ok_indexed texts.length, calls⟩
        else ⟨.retry_raised, []⟩
    else ⟨.ok_failed_extraction, []⟩

/-- Shallow embedding of backend/celery_app.py process_document_sync: the
same pipeline, but exceptions produce an error status instead of a Celery
retry. -/
def process_document_sync (s : Settings) (env : IngestEnv)
    (file_path event_type : String) : TaskRun :=
  let normalized := env.abspath file_path
  let source_type := sourceTypeFor s env normalized
  if event_type = "deleted" then
    if env.delete_ok then ⟨.ok_deleted, []⟩ else ⟨.sync_error, []⟩
  else
    let extracted_text := env.parse_document file_path
    if pyTruthy extracted_text then
      let texts := (env.split_text (extracted_text.getD "")).filter keepChunk
      if texts.isEmpty then ⟨.ok_no_content, []⟩
      else
        let calls :=
          if texts.length > 1000 then
            batchedAddTextsCalls env file_path normalized event_type source_type texts
          else
            [singleAddTextsCall env file_path normalized event_type source_type texts]
        if env.add_texts_ok then ⟨.ok_indexed texts.length, calls⟩
        else ⟨.sync_error, []⟩
    else ⟨.ok_failed_extraction, []⟩

/-! ### Retrieval and reranking pipeline (backend/main.py, backend/chromadb_fix.py) -/

/-- A retrieved document: page content plus the source metadata entry
(absent when the stored metadata has no source key). -/
structure RDoc where
  page_content : String
  source : Option String
deriving DecidableEq

/-- External collaborators of the query pipeline.  search models
robust_similarity_search (its internal score-less retry already folded
into the returned scored list: the fallback assigns dummy 0.0 scores, and
on total failure it returns the empty list); rerank models
reranker.predict, None meaning it raised; llm_answer models llm.invoke,
None meaning it raised. -/
structure SearchEnv where
  init_ok : Bool
  robust_init_ok : Bool
  doc_count : Nat
  search : Option String → List (RDoc × ℚ)
  rerank : List (String × String) → Option (List ℚ)
  llm_answer : Option String

/-- The metadata filter actually sent to the store: only the exact values
internal and external populate the filter dictionary; an empty dictionary
is passed as None. -/
def effectiveFilter : Option String → Option String
  | some st => if st = "internal" ∨ st = "external" then some st else none
  | none => none

/-- Step 2a of the pipeline: keep candidates whose distance is at most
1 - RETRIEVAL_SCORE_THRESHOLD. -/
def thresholdFiltered (s : Settings) (cands : List (RDoc × ℚ)) : List (RDoc × ℚ) :=
  cands.filter fun ds => decide (ds.2 ≤ 1 - s.RETRIEVAL_SCORE_THRESHOLD)

/-- Step 2b: if the threshold eliminated everything, keep the top 3
unfiltered candidates. -/
def afterThreshold (s : Settings) (cands : List (RDoc × ℚ)) : List (RDoc × ℚ) :=
  let filtered := thresholdFiltered s cands
  if filtered.isEmpty then cands.take 3 else filtered

/-- Steps 2-2c: threshold filter with top-3 fallback, then drop candidates
whose page content is empty or whitespace-only. -/
def searchSurvivors (s : Settings) (cands : List (RDoc × ℚ)) : List (RDoc × ℚ) :=
  (afterThreshold s cands).filter fun ds => keepChunk ds.1.page_content

/-- The comparison used for the rerank sort: higher cross-encoder score
first; Python list.sort is stable, as is insertionSort. -/
def byScoreDesc (a b : (RDoc × ℚ) × ℚ) : Prop := b.2 ≤ a.2

instance : DecidableRel byScoreDesc := fun a b => inferInstanceAs (Decidable (b.2 ≤ a.2))

instance : IsTotal ((RDoc × ℚ) × ℚ) byScoreDesc := ⟨fun a b => le_total b.2 a.2⟩

instance : IsTrans ((RDoc × ℚ) × ℚ) byScoreDesc := ⟨fun _ _ _ h1 h2 => le_trans h2 h1⟩

/-- Step 3: rerank the survivors with the cross-encoder and keep the top
RERANKER_TOP_K; if predict raises, keep the survivors in their original
order truncated to RERANKER_TOP_K. -/
def rerankDocs (s : Settings) (env : SearchEnv) (query : String)
    (survivors : List (RDoc × ℚ)) : List RDoc :=
  let pairs := survivors.map fun ds => (query, ds.1.page_content)
  match env.rerank pairs with
  | some scores =>
      let sorted := List.insertionSort byScoreDesc (survivors.zip scores)
      (sorted.take s.RERANKER_TOP_K).map fun x => x.1.1
  | none => (survivors.take s.RERANKER_TOP_K).map fun ds => ds.1

/-- The typed results of the query pipeline.  answered carries the
documents whose content was placed in the context and the de-duplicated
source file-name list. -/
inductive SearchResult where
  | no_documents_indexed
  | kb_unavailable
  | no_relevant_information
  | answered (answer : String) (used_docs : List RDoc) (sources : List String)
deriving DecidableEq

/-- Steps 4-5: build the context from the reranked documents (skipping
empty content), generate the answer (an LLM failure is replaced by an
error message, not raised) and attach the de-duplicated source list. -/
def assembleResult (env : SearchEnv) (final_docs : List RDoc) : SearchResult :=
  let kept := final_docs.filter fun d => keepChunk d.page_content
  if kept.isEmpty then .no_relevant_information
  else
    let result_text :=
      env.llm_answer.getD "Error generating response from the retrieved documents."
    .answered result_text kept
      (dedupFirst (kept.map fun d => baseName (d.source.getD "Unknown")))

/-- The pipeline from first-stage retrieval onwards, given the effective
metadata filter. -/
def searchCore (s : Settings) (env : SearchEnv) (query : String)
    (flt : Option String) : SearchResult :=
  let candidate_docs := env.search flt
  if candidate_docs.isEmpty then .no_relevant_information
  else
    let survivors := searchSurvivors s candidate_docs
    if survivors.isEmpty then .no_relevant_information
    else assembleResult env (rerankDocs s env query survivors)

/-- Shallow embedding of _run_knowledge_base_search after input parsing:
on the normal init path an empty collection short-circuits; when init
raises, the robust re-creation path proceeds directly to retrieval, and
its failure yields the typed unavailable result. -/
def run_knowledge_base_search (s : Settings) (env : SearchEnv) (query : String)
    (source_type : Option String) : SearchResult :=
  if env.init_ok then
    if env.doc_count = 0 then .no_documents_indexed
    else searchCore s env query (effectiveFilter source_type)
  else if env.robust_init_ok then searchCore s env query (effectiveFilter source_type)
  else .kb_unavailable

/-! ### Watcher and dispatch (neuralstark/watcher.py, backend/main.py) -/

/-- What happens to one filesystem event or one explicit dispatch:
directory events are ignored; otherwise the job is enqueued, or processed
synchronously in-process, or the enqueue exception propagates out of the
handler. -/
inductive DispatchResult where
  | ignored_directory
  | enqueued (file_path : String) (event_type : String)
  | sync_processed (r : TaskRun)
  | enqueue_error_propagated
deriving DecidableEq

def isSyncProcessed : DispatchResult → Bool
  | .sync_processed _ => true
  | _ => false

/-- Shallow embedding of DocumentEventHandler (neuralstark/watcher.py):
each handler calls process_document_task.delay directly, with no
exception handling, so a failing enqueue propagates out of the handler. -/
def documentEventHandler_dispatch (src_path event_type : String)
    (is_directory enqueue_ok : Bool) : DispatchResult :=
  if is_directory then .ignored_directory
  else if enqueue_ok then .enqueued src_path event_type
  else .enqueue_error_propagated

def on_created (src_path : String) (is_directory enqueue_ok : Bool) : DispatchResult :=
  documentEventHandler_dispatch src_path "created" is_directory enqueue_ok

def on_modified (src_path : String) (is_directory enqueue_ok : Bool) : DispatchResult :=
  documentEventHandler_dispatch src_path "modified" is_directory enqueue_ok

def on_deleted (src_path : String) (is_directory enqueue_ok : Bool) : DispatchResult :=
  documentEventHandler_dispatch src_path "deleted" is_directory enqueue_ok

/-- Shallow embedding of dispatch_document_processing (backend/main.py),
used by the upload and soft-reset endpoints: try to enqueue, and on
failure run process_document_sync in-process. -/
def dispatch_document_processing (s : Settings) (env : IngestEnv)
    (file_path event_type : String) (enqueue_ok : Bool) : DispatchResult :=
  if enqueue_ok then .enqueued file_path event_type
  else .sync_processed (process_document_sync s env file_path event_type)

/-! ### Store health, backup and recovery (backend/chromadb_robustness.py) -/

/-- A backup directory entry under chroma_backups: its directory name,
the reason it was created with, and its modification time. -/
structure Backup where
  name : String
  reason : String
  mtime : Nat
deriving DecidableEq

/-- ChromaDBRobustnessManager.max_backup_count. -/
def maxBackupCount : Nat := 10

def backupDirName (timestamp reason : String) : String :=
  "backup_" ++ timestamp ++ "_" ++ reason

/-- Sort order of _cleanup_old_backups: most recently modified first. -/
def newerFirst (a b : Backup) : Prop := b.mtime ≤ a.mtime

instance : DecidableRel newerFirst := fun a b => inferInstanceAs (Decidable (b.mtime ≤ a.mtime))

instance : IsTotal Backup newerFirst := ⟨fun a b => le_total b.mtime a.mtime⟩

instance : IsTrans Backup newerFirst := ⟨fun _ _ _ h1 h2 => le_trans h2 h1⟩

/-- Model of _cleanup_old_backups: sort the backup directories by mtime, newest
first, and remove everything past max_backup_count.  The state tracks
exactly the directories whose name starts with backup_, which is the set
that both this function and restore consider. -/
def cleanup_old_backups (backups : List Backup) : List Backup :=
  (List.insertionSort newerFirst backups).take maxBackupCount

/-- Filesystem environment of the robustness manager: whether the index
directory exists, whether copying it succeeds, its file tree (path and
size of every regular file), and the index directory path. -/
structure RobustnessEnv where
  chroma_path : String
  chroma_exists : Bool
  copy_ok : Bool
  files : List (String × Nat)

/-- Model of create_backup(reason): copy the index directory to a timestamped,
reason-tagged backup directory, then prune old backups; returns None
without pruning when the index directory is missing or the copy raises. -/
def create_backup (env : RobustnessEnv) (backups : List Backup)
    (reason timestamp : String) (now : Nat) : Option String × List Backup :=
  if env.chroma_exists then
    if env.copy_ok then
      let b : Backup := ⟨backupDirName timestamp reason, reason, now⟩
      (some b.name, cleanup_old_backups (b :: backups))
    else (none, backups)
  else (none, backups)

/-- Observable filesystem actions of a recovery run, in program order. -/
inductive RecoveryEvent where
  | backup_created (reason : String)
  | backup_failed (reason : String)
  | removed_file (path : String)
  | removed_dir (path : String)
  | created_dir (path : String)
deriving DecidableEq

/-- The destructive recovery actions: file removal, directory wipe,
directory recreation. -/
def destructiveEvent : RecoveryEvent → Bool
  | .removed_file _ => true
  | .removed_dir _ => true
  | .created_dir _ => true
  | _ => false

/-- Model of _recover_from_empty_files: delete every zero-byte file under the
index directory. -/
def recover_from_empty_files (env : RobustnessEnv) : Bool × List RecoveryEvent :=
  (true, (env.files.filter fun f => f.2 = 0).map fun f => .removed_file f.1)

/-- Substring test on character lists, for glob name patterns. -/
def hasSub (sub : List Char) : List Char → Bool
  | [] => sub.isEmpty
  | c :: cs => listStarts sub (c :: cs) || hasSub sub cs

/-- Model of _recover_from_connection_failure: delete files matching *.sqlite*. -/
def recover_from_connection_failure (env : RobustnessEnv) : Bool × List RecoveryEvent :=
  if env.chroma_exists then
    (true, (env.files.filter fun f => hasSub ".sqlite".data (baseName f.1).data).map
      fun f => .removed_file f.1)
  else (true, [])

/-- Model of _recover_from_index_corruption: delete files matching *.bin. -/
def recover_from_index_corruption (env : RobustnessEnv) : Bool × List RecoveryEvent :=
  (true, (env.files.filter fun f => listStarts ".bin".data.reverse (baseName f.1).data.reverse).map
    fun f => .removed_file f.1)

/-- Model of _full_reset_recovery: wipe the index directory if present, then
recreate it. -/
def full_reset_recovery (env : RobustnessEnv) : Bool × List RecoveryEvent :=
  if env.chroma_exists then
    (true, [.removed_dir env.chroma_path, .created_dir env.chroma_path])
  else (true, [.created_dir env.chroma_path])

/-- Model of auto_recovery(corruption_type): first back up the current (possibly
corrupted) state under a pre_recovery reason tag, then dispatch on the
corruption type.  Returns the recovery success flag, the backup state
after the call, and the event trace in program order. -/
def auto_recovery (env : RobustnessEnv) (backups : List Backup)
    (corruption_type timestamp : String) (now : Nat) :
    Bool × List Backup × List RecoveryEvent :=
  let reason := "pre_recovery_" ++ corruption_type
  let bk := create_backup env backups reason timestamp now
  let bkEvent : RecoveryEvent :=
    match bk.1 with
    | some _ => .backup_created reason
    | none => .backup_failed reason
  let recovery :=
    if corruption_type = "empty_files" then recover_from_empty_files env
    else if corruption_type = "connection_failure" then recover_from_connection_failure env
    else if corruption_type = "index_corruption" then recover_from_index_corruption env
    else full_reset_recovery env
  (recovery.1, bk.2, bkEvent :: recovery.2)

/-! ### Helper lemmas -/

theorem mem_insertIfAbsent (acc : List String) (x y : String) :
    y ∈ insertIfAbsent acc x ↔ y ∈ acc ∨ y = x := by
  unfold insertIfAbsent
  by_cases h : x ∈ acc
  · simp only [if_pos h]
    exact ⟨Or.inl, fun hy => hy.elim id fun e => e ▸ h⟩
  · simp [if_neg h]

theorem nodup_insertIfAbsent (acc : List String) (x : String) (h : acc.Nodup) :
    (insertIfAbsent acc x).Nodup := by
  unfold insertIfAbsent
  by_cases hx : x ∈ acc
  · simpa [if_pos hx]
  · simp [if_neg hx, List.nodup_append, h, hx]

theorem nodup_foldl_insertIfAbsent (l : List String) :
    ∀ acc : List String, acc.Nodup → (l.foldl insertIfAbsent acc).Nodup := by
  induction l with
  | nil => exact fun acc h => h
  | cons x xs ih =>
      intro acc h
      exact ih _ (nodup_insertIfAbsent acc x h)

theorem mem_foldl_insertIfAbsent (l : List String) :
    ∀ (acc : List String) (y : String),
      y ∈ l.foldl insertIfAbsent acc ↔ y ∈ acc ∨ y ∈ l := by
  induction l with
  | nil => simp
  | cons x xs ih =>
      intro acc y
      rw [List.foldl_cons, ih, mem_insertIfAbsent]
      simp only [List.mem_cons]
      tauto

theorem sublist_insertIfAbsent (acc : List String) (x : String) :
    (insertIfAbsent acc x).Sublist (acc ++ [x]) := by
  unfold insertIfAbsent
  by_cases hx : x ∈ acc
  · simp only [if_pos hx]
    exact List.sublist_append_left acc [x]
  · simp [if_neg hx]

theorem sublist_foldl_insertIfAbsent (l : List String) :
    ∀ acc : List String, (l.foldl insertIfAbsent acc).Sublist (acc ++ l) := by
  induction l with
  | nil => intro acc; simp
  | cons x xs ih =>
      intro acc
      have h1 := ih (insertIfAbsent acc x)
      have h2 : ((insertIfAbsent acc x) ++ xs).Sublist ((acc ++ [x]) ++ xs) :=
        (sublist_insertIfAbsent acc x).append (List.Sublist.refl xs)
      rw [List.foldl_cons]
      refine (h1.trans h2).trans ?_
      simp

theorem dedupFirst_nodup (l : List String) : (dedupFirst l).Nodup :=
  nodup_foldl_insertIfAbsent l [] List.nodup_nil

theorem mem_dedupFirst (l : List String) (y : String) : y ∈ dedupFirst l ↔ y ∈ l := by
  unfold dedupFirst
  rw [mem_foldl_insertIfAbsent]
  simp

theorem dedupFirst_sublist (l : List String) : (dedupFirst l).Sublist l := by
  have := sublist_foldl_insertIfAbsent l []
  simpa [dedupFirst] using this

theorem flatMap_congr_mem {α β : Type} (l : List α) (f g : α → List β)
    (h : ∀ a ∈ l, f a = g a) : l.flatMap f = l.flatMap g := by
  induction l with
  | nil => rfl
  | cons x xs ih =>
      rw [List.flatMap_cons, List.flatMap_cons, h x (List.mem_cons_self x xs),
        ih fun a ha => h a (List.mem_cons_of_mem x ha)]

/-- Taking consecutive 100-element slices at offsets 0, 100, 200, ...
reassembles the list, provided enough slices are taken. -/
theorem blocks_take_drop {α : Type} :
    ∀ (k : Nat) (l : List α), l.length ≤ k * 100 →
      ((List.range k).map (fun b => b * 100)).flatMap (fun i => (l.drop i).take 100) = l := by
  intro k
  induction k with
  | zero =>
      intro l h
      simp only [Nat.zero_mul, Nat.le_zero] at h
      simp [List.length_eq_zero.mp h]
  | succ k ih =>
      intro l h
      rw [List.range_succ, List.map_append, List.flatMap_append]
      by_cases hk : l.length ≤ k * 100
      · have hdrop : l.drop (k * 100) = [] := List.drop_eq_nil_of_le hk
        rw [ih l hk]
        simp [hdrop]
      · push_neg at hk
        have hA : ((List.range k).map (fun b => b * 100)).flatMap
              (fun i => (l.drop i).take 100)
            = ((List.range k).map (fun b => b * 100)).flatMap
              (fun i => ((l.take (k * 100)).drop i).take 100) := by
          apply flatMap_congr_mem
          intro i hi
          simp only [List.mem_map, List.mem_range] at hi
          obtain ⟨j, hj, rfl⟩ := hi
          rw [List.drop_take, List.take_take]
          congr 1
          omega
        have hlen : (l.take (k * 100)).length ≤ k * 100 := by
          simp [List.length_take]
        rw [hA, ih _ hlen]
        have htail : (l.drop (k * 100)).take 100 = l.drop (k * 100) := by
          apply List.take_of_length_le
          simp only [List.length_drop]
          omega
        simp only [List.map_cons, List.map_nil, List.flatMap_cons, List.flatMap_nil,
          List.append_nil, htail]
        exact List.take_append_drop (k * 100) l

/-- A 100-element slice of List.range n at offset i is the shifted range
of the slice length. -/
theorem drop_take_range (n i : Nat) :
    ((List.range n).drop i).take 100
      = (List.range (min 100 (n - i))).map (fun j => i + j) := by
  by_cases h : i ≤ n
  · conv_lhs => rw [show n = i + (n - i) from by omega, List.range_add]
    have hd : (List.range i ++ (List.range (n - i)).map (fun x => i + x)).drop i
        = (List.range (n - i)).map (fun x => i + x) := by
      have h0 := List.drop_left (List.range i) ((List.range (n - i)).map (fun x => i + x))
      rw [List.length_range] at h0
      exact h0
    rw [hd, ← List.map_take, List.take_range]
  · push_neg at h
    rw [List.drop_eq_nil_of_le (by simpa using h.le), show n - i = 0 from by omega]
    simp

/-- The chunk_index values produced across all batches form the contiguous
sequence 0, ..., n-1. -/
theorem blocks_range (n : Nat) :
    (pyRangeStep n 100).flatMap
        (fun i => (List.range (min 100 (n - i))).map (fun j => i + j))
      = List.range n := by
  have hk : (List.range n).length ≤ ((n + 100 - 1) / 100) * 100 := by
    simp only [List.length_range]
    omega
  have hmain := blocks_take_drop ((n + 100 - 1) / 100) (List.range n) hk
  rw [pyRangeStep, List.flatMap_map]
  rw [List.flatMap_map] at hmain
  refine Eq.trans ?_ hmain
  apply flatMap_congr_mem
  intro b _
  exact (drop_take_range n (b * 100)).symm

theorem mem_batched_source_type (env : IngestEnv) (fp nm ev st : String)
    (texts : List String) :
    ∀ c ∈ batchedAddTextsCalls env fp nm ev st texts,
      ∀ m ∈ c.metadatas, m.source_type = st := by
  intro c hc m hm
  simp only [batchedAddTextsCalls, List.mem_map] at hc
  obtain ⟨i, _, rfl⟩ := hc
  simp only [List.mem_map] at hm
  obtain ⟨j, _, rfl⟩ := hm
  rfl

theorem mem_single_source_type (env : IngestEnv) (fp nm ev st : String)
    (texts : List String) :
    ∀ m ∈ (singleAddTextsCall env fp nm ev st texts).metadatas, m.source_type = st := by
  intro m hm
  simp only [singleAddTextsCall, List.mem_map] at hm
  obtain ⟨j, _, rfl⟩ := hm
  rfl

/-- Claim C1: for a created or modified ingestion job, an empty or failed
extraction terminates the job with status failed_extraction, performs no
index writes, and never raises a retry: extraction failure is terminal,
not transient. -/
theorem C1_extraction_failure_terminal (s : Settings) (env : IngestEnv)
    (file_path event_type : String)
    (hev : event_type = "created" ∨ event_type = "modified")
    (hex : pyTruthy (env.parse_document file_path) = false) :
    (process_document_task s env file_path event_type).outcome
        = TaskOutcome.ok_failed_extraction
      ∧ (process_document_task s env file_path event_type).outcome
        ≠ TaskOutcome.retry_raised
      ∧ (process_document_task s env file_path event_type).add_texts_calls = [] := by
  have hne : event_type ≠ "deleted" := by
    rcases hev with h | h <;> subst h <;> decide
  simp [process_document_task, hne, hex]

def envC1 : IngestEnv :=
  { parse_document := fun _ => none
    split_text := fun t => [t]
    abspath := fun p => p
    getmtime := fun _ => 0
    delete_ok := true
    add_texts_ok := true }

theorem C1_witness :
    (("created" = "created" ∨ "created" = "modified")
        ∧ pyTruthy (envC1.parse_document "/tmp/broken.pdf") = false)
      ∧ (process_document_task defaultSettings envC1 "/tmp/broken.pdf" "created").outcome
          = TaskOutcome.ok_failed_extraction :=
  ⟨⟨Or.inl rfl, by decide⟩,
    (C1_extraction_failure_terminal defaultSettings envC1 "/tmp/broken.pdf" "created"
      (Or.inl rfl) (by decide)).1⟩

/-- Claim C8: an ingested path under neither watched root gets
source_type unknown, and the job still indexes the chunks rather than
rejecting the path or failing. -/
theorem C8_unknown_source_still_indexed (s : Settings) (env : IngestEnv)
    (file_path event_type t : String)
    (hev : event_type = "created" ∨ event_type = "modified")
    (hparse : env.parse_document file_path = some t) (ht : t ≠ "")
    (hint : strStarts (env.abspath file_path)
        (env.abspath s.INTERNAL_KNOWLEDGE_BASE_PATH) = false)
    (hext : strStarts (env.abspath file_path)
        (env.abspath s.EXTERNAL_KNOWLEDGE_BASE_PATH) = false)
    (hchunks : (env.split_text t).filter keepChunk ≠ [])
    (hok : env.add_texts_ok = true) :
    (process_document_task s env file_path event_type).outcome
        = TaskOutcome.ok_indexed ((env.split_text t).filter keepChunk).length
      ∧ (process_document_task s env file_path event_type).add_texts_calls ≠ []
      ∧ ∀ c ∈ (process_document_task s env file_path event_type).add_texts_calls,
          ∀ m ∈ c.metadatas, m.source_type = "unknown" := by
  have hne : event_type ≠ "deleted" := by
    rcases hev with h | h <;> subst h <;> decide
  have hst : sourceTypeFor s env (env.abspath file_path) = "unknown" := by
    simp [sourceTypeFor, hint, hext]
  by_cases hbig : ((env.split_text t).filter keepChunk).length > 1000
  · have hrun : process_document_task s env file_path event_type
        = ⟨TaskOutcome.ok_indexed ((env.split_text t).filter keepChunk).length,
            batchedAddTextsCalls env file_path (env.abspath file_path) event_type
              "unknown" ((env.split_text t).filter keepChunk)⟩ := by
      simp [process_document_task, hne, hparse, pyTruthy, ht, hchunks, hbig, hok, hst]
    rw [hrun]
    refine ⟨rfl, ?_, ?_⟩
    · simp only [batchedAddTextsCalls, pyRangeStep, ne_eq, List.map_eq_nil_iff,
        List.range_eq_nil]
      omega
    · exact mem_batched_source_type env file_path (env.abspath file_path) event_type
        "unknown" _
  · have hrun : process_document_task s env file_path event_type
        = ⟨TaskOutcome.ok_indexed ((env.split_text t).filter keepChunk).length,
            [singleAddTextsCall env file_path (env.abspath file_path) event_type
              "unknown" ((env.split_text t).filter keepChunk)]⟩ := by
      simp [process_document_task, hne, hparse, pyTruthy, ht, hchunks, hbig, hok, hst]
    rw [hrun]
    refine ⟨rfl, by simp, ?_⟩
    intro c hc m hm
    rw [List.mem_singleton] at hc
    subst hc
    exact mem_single_source_type env file_path (env.abspath file_path) event_type
      "unknown" _ m hm

def envC8 : IngestEnv :=
  { parse_document := fun _ => some "Orphan document body"
    split_text := fun t => [t]
    abspath := fun p => p
    getmtime := fun _ => 100
    delete_ok := true
    add_texts_ok := true }

theorem C8_witness :
    (("created" = "created" ∨ "created" = "modified")
        ∧ envC8.parse_document "/srv/orphan/doc.txt" = some "Orphan document body"
        ∧ strStarts (envC8.abspath "/srv/orphan/doc.txt")
            (envC8.abspath defaultSettings.INTERNAL_KNOWLEDGE_BASE_PATH) = false
        ∧ strStarts (envC8.abspath "/srv/orphan/doc.txt")
            (envC8.abspath defaultSettings.EXTERNAL_KNOWLEDGE_BASE_PATH) = false
        ∧ (envC8.split_text "Orphan document body").filter keepChunk ≠ [])
      ∧ (process_document_task defaultSettings envC8 "/srv/orphan/doc.txt" "created").outcome
          = TaskOutcome.ok_indexed
              ((envC8.split_text "Orphan document body").filter keepChunk).length :=
  ⟨⟨Or.inl rfl, rfl, by decide, by decide, by decide⟩,
    (C8_unknown_source_still_indexed defaultSettings envC8 "/srv/orphan/doc.txt" "created"
      "Orphan document body" (Or.inl rfl) rfl (by decide) (by decide) (by decide)
      (by decide) rfl).1⟩

/-- Claim C9: a source_type argument other than exactly internal or
external (misspellings, unknown, anything else) is silently ignored: no
metadata filter is sent to the store and the query behaves exactly like
an unfiltered query. -/
theorem C9_other_source_type_ignored (s : Settings) (env : SearchEnv)
    (query st : String) (h1 : st ≠ "internal") (h2 : st ≠ "external") :
    effectiveFilter (some st) = none
      ∧ run_knowledge_base_search s env query (some st)
          = run_knowledge_base_search s env query none := by
  have he : effectiveFilter (some st) = none := by
    simp [effectiveFilter, h1, h2]
  refine ⟨he, ?_⟩
  unfold run_knowledge_base_search
  rw [he]
  rfl

def envC9 : SearchEnv :=
  { init_ok := true
    robust_init_ok := true
    doc_count := 2
    search := fun flt =>
      match flt with
      | none => [(⟨"Alpha body", some "/kb/internal/a.txt"⟩, 1 / 10),
                 (⟨"Beta body", some "/kb/external/b.txt"⟩, 2 / 10)]
      | some _ => [(⟨"Alpha body", some "/kb/internal/a.txt"⟩, 1 / 10)]
    rerank := fun ps => some (ps.map fun _ => 1 / 2)
    llm_answer := some "answer text" }

theorem C9_witness :
    ("unknwon" ≠ "internal" ∧ "unknwon" ≠ "external")
      ∧ run_knowledge_base_search defaultSettings envC9 "q" (some "unknwon")
          = run_knowledge_base_search defaultSettings envC9 "q" none :=
  ⟨⟨by decide, by decide⟩,
    (C9_other_source_type_ignored defaultSettings envC9 "q" "unknwon"
      (by decide) (by decide)).2⟩

/-- Claim C4 counterexample: at a concrete watcher event whose enqueue
fails, DocumentEventHandler does not run the ingestion logic
synchronously; the enqueue exception propagates out of the handler and
the event is dropped. -/
theorem C4_counterexample :
    on_created "/app/backend/knowledge_base/internal/new.txt" false false
        = DispatchResult.enqueue_error_propagated
      ∧ isSyncProcessed
          (on_created "/app/backend/knowledge_base/internal/new.txt" false false)
        = false := by
  decide

/-- Claim C4, amended: the synchronous in-process fallback on enqueue
failure exists in dispatch_document_processing, which serves the upload
and soft-reset endpoints; the Watcher event handlers enqueue directly and
perform no synchronous fallback, for any event type or path. -/
theorem C4_dispatch_fallback_not_watcher (s : Settings) (env : IngestEnv)
    (file_path event_type : String) :
    dispatch_document_processing s env file_path event_type false
        = DispatchResult.sync_processed (process_document_sync s env file_path event_type)
      ∧ ∀ is_directory enqueue_ok : Bool,
          isSyncProcessed
            (documentEventHandler_dispatch file_path event_type is_directory enqueue_ok)
          = false := by
  refine ⟨rfl, ?_⟩
  intro d e
  cases d <;> cases e <;> rfl

theorem C4_witness :
    dispatch_document_processing defaultSettings envC1
        "/app/backend/knowledge_base/internal/new.txt" "created" false
      = DispatchResult.sync_processed
          (process_document_sync defaultSettings envC1
            "/app/backend/knowledge_base/internal/new.txt" "created") :=
  (C4_dispatch_fallback_not_watcher defaultSettings envC1
    "/app/backend/knowledge_base/internal/new.txt" "created").1

def isBackupCreated : RecoveryEvent → Bool
  | .backup_created _ => true
  | _ => false

def envC6fail : RobustnessEnv :=
  { chroma_path := "/app/chroma_db"
    chroma_exists := true
    copy_ok := false
    files := [("/app/chroma_db/data_level0.bin", 0)] }

/-- Claim C6 counterexample: at a concrete invocation where copying the
index directory raises (create_backup catches it and returns None),
auto_recovery still performs a destructive recovery step, with no
pre_recovery-tagged backup ever created: the trace records a failed
backup attempt followed by a file removal, and the backup state is
unchanged. -/
theorem C6_counterexample :
    (auto_recovery envC6fail [] "empty_files" "20250101_000000" 7).2.2
        = [RecoveryEvent.backup_failed ("pre_recovery_" ++ "empty_files"),
           RecoveryEvent.removed_file "/app/chroma_db/data_level0.bin"]
      ∧ ((auto_recovery envC6fail [] "empty_files" "20250101_000000" 7).2.2).any
          destructiveEvent = true
      ∧ ((auto_recovery envC6fail [] "empty_files" "20250101_000000" 7).2.2).any
          isBackupCreated = false
      ∧ (auto_recovery envC6fail [] "empty_files" "20250101_000000" 7).2.1 = [] := by
  decide

/-- Claim C6, amended: for every invocation of auto_recovery, the
pre_recovery-tagged backup ATTEMPT is the first event of the run, so
every destructive step (file removal, wipe, recreate) occurs strictly
after it; whenever the index directory exists and the copy succeeds the
attempt succeeds, i.e. a pre_recovery-tagged backup is created before any
destructive step.  When the attempt fails (missing directory or a raised
copy), recovery proceeds destructively without a backup. -/
theorem C6_pre_recovery_backup_first (env : RobustnessEnv) (backups : List Backup)
    (corruption_type timestamp : String) (now : Nat) :
    (((auto_recovery env backups corruption_type timestamp now).2.2).head?
        = some (RecoveryEvent.backup_created ("pre_recovery_" ++ corruption_type))
      ∨ ((auto_recovery env backups corruption_type timestamp now).2.2).head?
        = some (RecoveryEvent.backup_failed ("pre_recovery_" ++ corruption_type)))
      ∧ (∀ (i : Nat) (e : RecoveryEvent),
          ((auto_recovery env backups corruption_type timestamp now).2.2)[i]? = some e →
          destructiveEvent e = true → 0 < i)
      ∧ (env.chroma_exists = true → env.copy_ok = true →
          ((auto_recovery env backups corruption_type timestamp now).2.2).head?
            = some (RecoveryEvent.backup_created ("pre_recovery_" ++ corruption_type))) := by
  have hbk : (auto_recovery env backups corruption_type timestamp now).2.2
      = (match (create_backup env backups ("pre_recovery_" ++ corruption_type)
            timestamp now).1 with
         | some _ => RecoveryEvent.backup_created ("pre_recovery_" ++ corruption_type)
         | none => RecoveryEvent.backup_failed ("pre_recovery_" ++ corruption_type))
        :: (if corruption_type = "empty_files" then recover_from_empty_files env
            else if corruption_type = "connection_failure" then
              recover_from_connection_failure env
            else if corruption_type = "index_corruption" then
              recover_from_index_corruption env
            else full_reset_recovery env).2 := rfl
  refine ⟨?_, ?_, ?_⟩
  · rw [hbk]
    cases hres : (create_backup env backups ("pre_recovery_" ++ corruption_type)
        timestamp now).1 with
    | some a => exact Or.inl rfl
    | none => exact Or.inr rfl
  · intro i e he hd
    rcases i with _ | i
    · rw [hbk] at he
      simp only [List.getElem?_cons_zero, Option.some_inj] at he
      rw [← he] at hd
      cases hres : (create_backup env backups ("pre_recovery_" ++ corruption_type)
          timestamp now).1 with
      | some a =>
          rw [hres] at hd
          simp [destructiveEvent] at hd
      | none =>
          rw [hres] at hd
          simp [destructiveEvent] at hd
    · exact Nat.succ_pos i
  · intro hex hcp
    rw [hbk]
    have hres : (create_backup env backups ("pre_recovery_" ++ corruption_type)
        timestamp now).1
        = some (backupDirName timestamp ("pre_recovery_" ++ corruption_type)) := by
      simp [create_backup, hex, hcp]
    rw [hres]
    rfl

def envC6 : RobustnessEnv :=
  { chroma_path := "/app/chroma_db"
    chroma_exists := true
    copy_ok := true
    files := [("/app/chroma_db/data_level0.bin", 0), ("/app/chroma_db/chroma.sqlite3", 4096)] }

theorem C6_witness :
    (envC6.chroma_exists = true ∧ envC6.copy_ok = true)
      ∧ ((auto_recovery envC6 [] "empty_files" "20250101_000000" 7).2.2).head?
          = some (RecoveryEvent.backup_created ("pre_recovery_" ++ "empty_files")) :=
  ⟨⟨rfl, rfl⟩,
    (C6_pre_recovery_backup_first envC6 [] "empty_files" "20250101_000000" 7).2.2 rfl rfl⟩

/-- Claim C7: each completed create_backup call leaves at most
max_backup_count (10) backups, namely the top 10 of the mtime-descending
sort of the previous backups plus the new one; every pruned backup is at
most as recent as every survivor, so pruning removes oldest-first and the
survivors are the most recent ones. -/
theorem C7_backup_rotation (env : RobustnessEnv) (backups : List Backup)
    (reason timestamp : String) (now : Nat)
    (hex : env.chroma_exists = true) (hcp : env.copy_ok = true) :
    (create_backup env backups reason timestamp now).2
        = (List.insertionSort newerFirst
            (⟨backupDirName timestamp reason, reason, now⟩ :: backups)).take maxBackupCount
      ∧ (create_backup env backups reason timestamp now).2.length ≤ maxBackupCount
      ∧ (List.insertionSort newerFirst
          (⟨backupDirName timestamp reason, reason, now⟩ :: backups)).Perm
          (⟨backupDirName timestamp reason, reason, now⟩ :: backups)
      ∧ ∀ k ∈ (create_backup env backups reason timestamp now).2,
          ∀ d ∈ (List.insertionSort newerFirst
              (⟨backupDirName timestamp reason, reason, now⟩ :: backups)).drop maxBackupCount,
            d.mtime ≤ k.mtime := by
  have heq : (create_backup env backups reason timestamp now).2
      = (List.insertionSort newerFirst
          (⟨backupDirName timestamp reason, reason, now⟩ :: backups)).take maxBackupCount := by
    simp [create_backup, hex, hcp, cleanup_old_backups]
  have hsorted : List.Sorted newerFirst
      (List.insertionSort newerFirst (⟨backupDirName timestamp reason, reason, now⟩ :: backups)) :=
    List.sorted_insertionSort newerFirst _
  refine ⟨heq, ?_, List.perm_insertionSort newerFirst _, ?_⟩
  · rw [heq]
    exact List.length_take_le _ _
  · intro k hk d hd
    rw [heq] at hk
    have hp : List.Pairwise newerFirst
        ((List.insertionSort newerFirst
            (⟨backupDirName timestamp reason, reason, now⟩ :: backups)).take maxBackupCount
          ++ (List.insertionSort newerFirst
            (⟨backupDirName timestamp reason, reason, now⟩ :: backups)).drop maxBackupCount) := by
      rw [List.take_append_drop]
      exact hsorted
    exact (List.pairwise_append.mp hp).2.2 k hk d hd

def backupsC7 : List Backup :=
  [⟨"backup_t1_auto", "auto", 1⟩, ⟨"backup_t2_auto", "auto", 2⟩,
   ⟨"backup_t3_auto", "auto", 3⟩, ⟨"backup_t4_auto", "auto", 4⟩,
   ⟨"backup_t5_auto", "auto", 5⟩, ⟨"backup_t6_auto", "auto", 6⟩,
   ⟨"backup_t7_auto", "auto", 7⟩, ⟨"backup_t8_auto", "auto", 8⟩,
   ⟨"backup_t9_auto", "auto", 9⟩, ⟨"backup_t10_auto", "auto", 10⟩]

theorem C7_witness :
    (envC6.chroma_exists = true ∧ envC6.copy_ok = true)
      ∧ (create_backup envC6 backupsC7 "manual" "t11" 11).2.length ≤ maxBackupCount :=
  ⟨⟨rfl, rfl⟩,
    (C7_backup_rotation envC6 backupsC7 "manual" "t11" 11 rfl rfl).2.1⟩

theorem batched_calls_length (env : IngestEnv) (fp nm ev st : String)
    (texts : List String) :
    (batchedAddTextsCalls env fp nm ev st texts).length
      = (texts.length + 100 - 1) / 100 := by
  simp [batchedAddTextsCalls, pyRangeStep]

theorem batched_flatMap_texts (env : IngestEnv) (fp nm ev st : String)
    (texts : List String) :
    (batchedAddTextsCalls env fp nm ev st texts).flatMap (fun c => c.texts) = texts := by
  unfold batchedAddTextsCalls pyRangeStep
  rw [List.flatMap_map, List.flatMap_map]
  show ((List.range ((texts.length + 100 - 1) / 100)).flatMap
      fun a => (texts.drop (a * 100)).take 100) = texts
  have h := blocks_take_drop ((texts.length + 100 - 1) / 100) texts (by omega)
  rw [List.flatMap_map] at h
  exact h

theorem batched_indices (env : IngestEnv) (fp nm ev st : String)
    (texts : List String) :
    ((batchedAddTextsCalls env fp nm ev st texts).flatMap (fun c => c.metadatas)).map
        (fun m => m.chunk_index)
      = List.range texts.length := by
  rw [List.map_flatMap]
  unfold batchedAddTextsCalls
  rw [List.flatMap_map]
  have hcong : ∀ i ∈ pyRangeStep texts.length 100,
      (((List.range ((texts.drop i).take 100).length).map
          (fun j => mkChunkMeta env fp nm ev st (some (i / 100)) (i + j))).map
        (fun m => m.chunk_index))
        = (List.range (min 100 (texts.length - i))).map (fun j => i + j) := by
    intro i _
    rw [List.map_map, List.length_take, List.length_drop]
    rfl
  refine Eq.trans (flatMap_congr_mem _ _ _ ?_) (blocks_range texts.length)
  intro i hi
  exact hcong i hi

theorem batched_sizes (env : IngestEnv) (fp nm ev st : String)
    (texts : List String) (hn : 0 < texts.length) :
    ∀ c ∈ batchedAddTextsCalls env fp nm ev st texts,
      0 < c.texts.length ∧ c.texts.length ≤ 100 := by
  intro c hc
  simp only [batchedAddTextsCalls, List.mem_map] at hc
  obtain ⟨i, hi, rfl⟩ := hc
  simp only [pyRangeStep, List.mem_map, List.mem_range] at hi
  obtain ⟨b, hb, rfl⟩ := hi
  simp only [List.length_take, List.length_drop]
  omega

theorem batched_nonlast_full (env : IngestEnv) (fp nm ev st : String)
    (texts : List String) :
    ∀ (i : Nat) (c : AddTextsCall),
      i + 1 < (batchedAddTextsCalls env fp nm ev st texts).length →
      (batchedAddTextsCalls env fp nm ev st texts)[i]? = some c →
      c.texts.length = 100 := by
  intro i c hlen hget
  simp only [batchedAddTextsCalls, pyRangeStep, List.length_map,
    List.length_range] at hlen
  simp only [batchedAddTextsCalls, pyRangeStep, List.getElem?_map] at hget
  rw [List.getElem?_range (by omega)] at hget
  simp only [Option.map_some', Option.some_inj] at hget
  rw [← hget]
  simp only [List.length_take, List.length_drop]
  omega

/-- Claim C3: a created/modified document whose chunker output exceeds
1000 chunks is upserted in batches of at most 100 (every one full except
possibly the last), the batches reassemble the chunk list exactly, and
the chunk_index metadata across all batches is the contiguous sequence
0..N-1 with no gaps or duplicates. -/
theorem C3_batched_contiguous_indices (s : Settings) (env : IngestEnv)
    (file_path event_type t : String)
    (hev : event_type = "created" ∨ event_type = "modified")
    (hparse : env.parse_document file_path = some t) (ht : t ≠ "")
    (hok : env.add_texts_ok = true)
    (hbig : ((env.split_text t).filter keepChunk).length > 1000) :
    (process_document_task s env file_path event_type).outcome
        = TaskOutcome.ok_indexed ((env.split_text t).filter keepChunk).length
      ∧ (process_document_task s env file_path event_type).add_texts_calls.length
          = (((env.split_text t).filter keepChunk).length + 100 - 1) / 100
      ∧ (∀ c ∈ (process_document_task s env file_path event_type).add_texts_calls,
          0 < c.texts.length ∧ c.texts.length ≤ 100)
      ∧ (∀ (i : Nat) (c : AddTextsCall),
          i + 1 < (process_document_task s env file_path event_type).add_texts_calls.length →
          (process_document_task s env file_path event_type).add_texts_calls[i]? = some c →
          c.texts.length = 100)
      ∧ ((process_document_task s env file_path event_type).add_texts_calls.flatMap
            (fun c => c.texts))
          = (env.split_text t).filter keepChunk
      ∧ (((process_document_task s env file_path event_type).add_texts_calls.flatMap
            (fun c => c.metadatas)).map (fun m => m.chunk_index))
          = List.range ((env.split_text t).filter keepChunk).length := by
  have hne : event_type ≠ "deleted" := by
    rcases hev with h | h <;> subst h <;> decide
  have hchunks : (env.split_text t).filter keepChunk ≠ [] := by
    intro h0
    rw [h0] at hbig
    simp at hbig
  have hrun : process_document_task s env file_path event_type
      = ⟨TaskOutcome.ok_indexed ((env.split_text t).filter keepChunk).length,
          batchedAddTextsCalls env file_path (env.abspath file_path) event_type
            (sourceTypeFor s env (env.abspath file_path))
            ((env.split_text t).filter keepChunk)⟩ := by
    simp [process_document_task, hne, hparse, pyTruthy, ht, hchunks, hbig, hok]
  rw [hrun]
  exact ⟨rfl, batched_calls_length _ _ _ _ _ _,
    batched_sizes _ _ _ _ _ _ (by omega),
    batched_nonlast_full _ _ _ _ _ _,
    batched_flatMap_texts _ _ _ _ _ _,
    batched_indices _ _ _ _ _ _⟩

def envC3 : IngestEnv :=
  { parse_document := fun _ => some "big document"
    split_text := fun _ => List.replicate 2500 "chunk"
    abspath := fun p => p
    getmtime := fun _ => 0
    delete_ok := true
    add_texts_ok := true }

theorem C3_witness :
    (("created" = "created" ∨ "created" = "modified")
        ∧ envC3.parse_document "/kb/big.txt" = some "big document"
        ∧ ((envC3.split_text "big document").filter keepChunk).length > 1000)
      ∧ (((process_document_task defaultSettings envC3 "/kb/big.txt" "created").add_texts_calls.flatMap
            (fun c => c.metadatas)).map (fun m => m.chunk_index))
          = List.range ((envC3.split_text "big document").filter keepChunk).length := by
  have hfl : (List.replicate 2500 "chunk").filter keepChunk = List.replicate 2500 "chunk" :=
    List.filter_eq_self.mpr fun a ha => by
      rw [List.eq_of_mem_replicate ha]
      decide
  have hbig : ((envC3.split_text "big document").filter keepChunk).length > 1000 := by
    show ((List.replicate 2500 "chunk").filter keepChunk).length > 1000
    rw [hfl, List.length_replicate]
    omega
  exact ⟨⟨Or.inl rfl, rfl, hbig⟩,
    (C3_batched_contiguous_indices defaultSettings envC3 "/kb/big.txt" "created"
      "big document" (Or.inl rfl) rfl (by decide) rfl hbig).2.2.2.2.2⟩

theorem run_reaches_core (s : Settings) (env : SearchEnv) (query : String)
    (st : Option String) (hinit : env.init_ok = true) (hcount : env.doc_count ≠ 0) :
    run_knowledge_base_search s env query st
      = searchCore s env query (effectiveFilter st) := by
  simp [run_knowledge_base_search, hinit, hcount]

theorem searchCore_assembles (s : Settings) (env : SearchEnv) (query : String)
    (flt : Option String) (hc : env.search flt ≠ [])
    (hs : searchSurvivors s (env.search flt) ≠ []) :
    searchCore s env query flt
      = assembleResult env (rerankDocs s env query (searchSurvivors s (env.search flt))) := by
  simp [searchCore, List.isEmpty_iff, hc, hs]

theorem survivors_keep (s : Settings) (cands : List (RDoc × ℚ)) :
    ∀ ds ∈ searchSurvivors s cands, keepChunk ds.1.page_content = true := by
  intro ds h
  unfold searchSurvivors at h
  exact (List.mem_filter.mp h).2

theorem assembleResult_of_all_keep (env : SearchEnv) (final : List RDoc)
    (hk : ∀ d ∈ final, keepChunk d.page_content = true) (hne : final ≠ []) :
    assembleResult env final
      = SearchResult.answered
          (env.llm_answer.getD "Error generating response from the retrieved documents.")
          final (dedupFirst (final.map fun d => baseName (d.source.getD "Unknown"))) := by
  simp only [assembleResult]
  rw [List.filter_eq_self.mpr hk]
  simp [List.isEmpty_iff, hne]

theorem rerankDocs_rerank_none (s : Settings) (env : SearchEnv) (query : String)
    (surv : List (RDoc × ℚ))
    (hf : env.rerank (surv.map fun ds => (query, ds.1.page_content)) = none) :
    rerankDocs s env query surv = (surv.take s.RERANKER_TOP_K).map fun ds => ds.1 := by
  simp only [rerankDocs]
  rw [hf]

theorem rerankDocs_mem (s : Settings) (env : SearchEnv) (query : String)
    (surv : List (RDoc × ℚ)) :
    ∀ d ∈ rerankDocs s env query surv, ∃ ds ∈ surv, d = ds.1 := by
  intro d hd
  simp only [rerankDocs] at hd
  cases henv : env.rerank (surv.map fun ds => (query, ds.1.page_content)) with
  | none =>
      rw [henv] at hd
      simp only [List.mem_map] at hd
      obtain ⟨ds, hds, rfl⟩ := hd
      exact ⟨ds, List.mem_of_mem_take hds, rfl⟩
  | some scores =>
      rw [henv] at hd
      simp only [List.mem_map] at hd
      obtain ⟨x, hx, rfl⟩ := hd
      have hx2 : x ∈ List.insertionSort byScoreDesc (surv.zip scores) :=
        List.mem_of_mem_take hx
      have hx3 : x ∈ surv.zip scores :=
        ((List.perm_insertionSort byScoreDesc _).mem_iff).mp hx2
      obtain ⟨ds, sc⟩ := x
      exact ⟨ds, (List.of_mem_zip hx3).1, rfl⟩

theorem rerankDocs_length_le (s : Settings) (env : SearchEnv) (query : String)
    (surv : List (RDoc × ℚ)) :
    (rerankDocs s env query surv).length ≤ surv.length
      ∧ (rerankDocs s env query surv).length ≤ s.RERANKER_TOP_K := by
  simp only [rerankDocs]
  cases henv : env.rerank (surv.map fun ds => (query, ds.1.page_content)) with
  | none =>
      simp only [List.length_map, List.length_take]
      omega
  | some scores =>
      have hlen : (List.insertionSort byScoreDesc (surv.zip scores)).length
          = (surv.zip scores).length :=
        (List.perm_insertionSort byScoreDesc _).length_eq
      simp only [List.length_map, List.length_take, hlen, List.length_zip]
      omega

theorem rerankDocs_pos (s : Settings) (env : SearchEnv) (query : String)
    (surv : List (RDoc × ℚ)) (hK : 0 < s.RERANKER_TOP_K) (hne : surv ≠ [])
    (hsc : ∀ scores,
      env.rerank (surv.map fun ds => (query, ds.1.page_content)) = some scores →
      scores.length = surv.length) :
    0 < (rerankDocs s env query surv).length := by
  have hpos : 0 < surv.length := List.length_pos.mpr hne
  simp only [rerankDocs]
  cases henv : env.rerank (surv.map fun ds => (query, ds.1.page_content)) with
  | none =>
      simp only [List.length_map, List.length_take]
      omega
  | some scores =>
      have hslen : scores.length = surv.length := hsc scores henv
      have hlen : (List.insertionSort byScoreDesc (surv.zip scores)).length
          = (surv.zip scores).length :=
        (List.perm_insertionSort byScoreDesc _).length_eq
      simp only [List.length_map, List.length_take, hlen, List.length_zip, hslen]
      omega

/-- Claim C5: when the cross-encoder reranking step raises, the pipeline
returns the surviving candidates in pre-rerank order truncated to
RERANKER_TOP_K, as a normal answered result: a reranking failure never
fails the query. -/
theorem C5_rerank_failure_pre_rerank_order (s : Settings) (env : SearchEnv)
    (query : String) (st : Option String)
    (hinit : env.init_ok = true) (hcount : env.doc_count ≠ 0)
    (hK : 0 < s.RERANKER_TOP_K)
    (hsurv : searchSurvivors s (env.search (effectiveFilter st)) ≠ [])
    (hfail : env.rerank ((searchSurvivors s (env.search (effectiveFilter st))).map
        fun ds => (query, ds.1.page_content)) = none) :
    run_knowledge_base_search s env query st
      = SearchResult.answered
          (env.llm_answer.getD "Error generating response from the retrieved documents.")
          (((searchSurvivors s (env.search (effectiveFilter st))).take
              s.RERANKER_TOP_K).map fun ds => ds.1)
          (dedupFirst ((((searchSurvivors s (env.search (effectiveFilter st))).take
              s.RERANKER_TOP_K).map fun ds => ds.1).map
            fun d => baseName (d.source.getD "Unknown"))) := by
  have hc : env.search (effectiveFilter st) ≠ [] := by
    intro h0
    apply hsurv
    rw [h0]
    rfl
  rw [run_reaches_core s env query st hinit hcount,
    searchCore_assembles s env query _ hc hsurv,
    rerankDocs_rerank_none s env query _ hfail]
  apply assembleResult_of_all_keep
  · intro d hd
    simp only [List.mem_map] at hd
    obtain ⟨ds, hds, rfl⟩ := hd
    exact survivors_keep s _ ds (List.mem_of_mem_take hds)
  · simp only [ne_eq, List.map_eq_nil_iff, List.take_eq_nil_iff]
    push_neg
    exact ⟨fun h => absurd h (by omega), hsurv⟩

def envC5 : SearchEnv :=
  { init_ok := true
    robust_init_ok := true
    doc_count := 2
    search := fun _ => [(⟨"First chunk", some "/kb/internal/one.txt"⟩, 1 / 10),
                        (⟨"Second chunk", some "/kb/internal/two.txt"⟩, 2 / 10)]
    rerank := fun _ => none
    llm_answer := some "llm answer" }

theorem C5_witness :
    (envC5.init_ok = true ∧ envC5.doc_count ≠ 0 ∧ 0 < defaultSettings.RERANKER_TOP_K
        ∧ searchSurvivors defaultSettings (envC5.search (effectiveFilter none)) ≠ []
        ∧ envC5.rerank ((searchSurvivors defaultSettings
            (envC5.search (effectiveFilter none))).map
              fun ds => ("q", ds.1.page_content)) = none)
      ∧ run_knowledge_base_search defaultSettings envC5 "q" none
          = SearchResult.answered
              (envC5.llm_answer.getD "Error generating response from the retrieved documents.")
              (((searchSurvivors defaultSettings (envC5.search (effectiveFilter none))).take
                  defaultSettings.RERANKER_TOP_K).map fun ds => ds.1)
              (dedupFirst ((((searchSurvivors defaultSettings
                  (envC5.search (effectiveFilter none))).take
                    defaultSettings.RERANKER_TOP_K).map fun ds => ds.1).map
                fun d => baseName (d.source.getD "Unknown"))) := by
  have hq1 : ((1 : ℚ) / 10 ≤ 1 - 3 / 10) := by norm_num
  have hq2 : ((2 : ℚ) / 10 ≤ 1 - 3 / 10) := by norm_num
  have hk1 : keepChunk "First chunk" = true := by decide
  have hk2 : keepChunk "Second chunk" = true := by decide
  have hs : searchSurvivors defaultSettings (envC5.search (effectiveFilter none))
      = [(⟨"First chunk", some "/kb/internal/one.txt"⟩, 1 / 10),
         (⟨"Second chunk", some "/kb/internal/two.txt"⟩, 2 / 10)] := by
    norm_num [searchSurvivors, afterThreshold, thresholdFiltered, envC5, effectiveFilter,
      defaultSettings, hq1, hq2, hk1, hk2]
  have hsurv : searchSurvivors defaultSettings (envC5.search (effectiveFilter none)) ≠ [] := by
    rw [hs]
    exact List.cons_ne_nil _ _
  exact ⟨⟨rfl, by decide, by decide, hsurv, rfl⟩,
    C5_rerank_failure_pre_rerank_order defaultSettings envC5 "q" none rfl (by decide)
      (by decide) hsurv rfl⟩

def envC2 : SearchEnv :=
  { init_ok := true
    robust_init_ok := true
    doc_count := 1
    search := fun _ => [(⟨"   ", some "/kb/internal/blank.txt"⟩, 9 / 10)]
    rerank := fun ps => some (ps.map fun _ => 0)
    llm_answer := some "unused" }

/-- Claim C2 counterexample: a query whose single candidate is eliminated
by the threshold falls back to the top 3, but since that candidate has
whitespace-only text the pipeline then returns the typed no-information
result with zero results, not 1-3 results. -/
theorem C2_counterexample :
    envC2.search (effectiveFilter none) ≠ []
      ∧ thresholdFiltered defaultSettings (envC2.search (effectiveFilter none)) = []
      ∧ run_knowledge_base_search defaultSettings envC2 "any query" none
          = SearchResult.no_relevant_information := by
  have hq : ¬((9 : ℚ) / 10 ≤ 1 - 3 / 10) := by norm_num
  have hk : keepChunk "   " = false := by decide
  refine ⟨by simp [envC2, effectiveFilter], ?_, ?_⟩
  · simp [thresholdFiltered, envC2, effectiveFilter, defaultSettings, hq]
  · simp [run_knowledge_base_search, searchCore, searchSurvivors, afterThreshold,
      thresholdFiltered, envC2, effectiveFilter, defaultSettings, hq, hk]

/-- Claim C2, amended: when the threshold eliminates every candidate the
pipeline falls back to the top 3 unfiltered candidates, and provided at
least one of those has non-whitespace text (and the reranker returns one
score per pair when it succeeds), the query returns an answered result
with between 1 and 3 results; if all fallback candidates are blank the
typed no-information result is returned instead. -/
theorem C2_threshold_fallback_top3 (s : Settings) (env : SearchEnv)
    (query : String) (st : Option String)
    (hinit : env.init_ok = true) (hcount : env.doc_count ≠ 0)
    (hK : 0 < s.RERANKER_TOP_K)
    (hthr : thresholdFiltered s (env.search (effectiveFilter st)) = [])
    (hfb : ((env.search (effectiveFilter st)).take 3).filter
        (fun ds => keepChunk ds.1.page_content) ≠ [])
    (hsc : ∀ scores,
      env.rerank ((searchSurvivors s (env.search (effectiveFilter st))).map
        fun ds => (query, ds.1.page_content)) = some scores →
      scores.length = (searchSurvivors s (env.search (effectiveFilter st))).length) :
    ∃ ans kept srcs,
      run_knowledge_base_search s env query st = SearchResult.answered ans kept srcs
        ∧ 0 < kept.length ∧ kept.length ≤ 3 := by
  have hsurv_eq : searchSurvivors s (env.search (effectiveFilter st))
      = ((env.search (effectiveFilter st)).take 3).filter
          (fun ds => keepChunk ds.1.page_content) := by
    unfold searchSurvivors afterThreshold
    rw [hthr]
    rfl
  have hsurv : searchSurvivors s (env.search (effectiveFilter st)) ≠ [] := by
    rw [hsurv_eq]
    exact hfb
  have hc : env.search (effectiveFilter st) ≠ [] := by
    intro h0
    apply hfb
    rw [h0]
    rfl
  have hlen3 : (searchSurvivors s (env.search (effectiveFilter st))).length ≤ 3 := by
    rw [hsurv_eq]
    refine le_trans (List.length_filter_le _ _) ?_
    exact le_trans (List.length_take_le _ _) (by omega)
  have hkeep : ∀ d ∈ rerankDocs s env query
      (searchSurvivors s (env.search (effectiveFilter st))),
      keepChunk d.page_content = true := by
    intro d hd
    obtain ⟨ds, hds, rfl⟩ := rerankDocs_mem s env query _ d hd
    exact survivors_keep s _ ds hds
  have hpos : 0 < (rerankDocs s env query
      (searchSurvivors s (env.search (effectiveFilter st)))).length :=
    rerankDocs_pos s env query _ hK hsurv hsc
  have hne : rerankDocs s env query
      (searchSurvivors s (env.search (effectiveFilter st))) ≠ [] := by
    intro h0
    rw [h0] at hpos
    simp at hpos
  refine ⟨env.llm_answer.getD "Error generating response from the retrieved documents.",
    rerankDocs s env query (searchSurvivors s (env.search (effectiveFilter st))),
    dedupFirst ((rerankDocs s env query
      (searchSurvivors s (env.search (effectiveFilter st)))).map
        fun d => baseName (d.source.getD "Unknown")),
    ?_, hpos, ?_⟩
  · rw [run_reaches_core s env query st hinit hcount,
      searchCore_assembles s env query _ hc hsurv,
      assembleResult_of_all_keep env _ hkeep hne]
  · exact le_trans (rerankDocs_length_le s env query _).1 hlen3

def envC2b : SearchEnv :=
  { init_ok := true
    robust_init_ok := true
    doc_count := 4
    search := fun _ => [(⟨"Far candidate one", some "/kb/internal/far1.txt"⟩, 9 / 10),
                        (⟨"Far candidate two", some "/kb/internal/far2.txt"⟩, 8 / 10),
                        (⟨"Far candidate three", some "/kb/internal/far3.txt"⟩, 9 / 10),
                        (⟨"Far candidate four", some "/kb/internal/far4.txt"⟩, 9 / 10)]
    rerank := fun _ => none
    llm_answer := some "llm answer" }

theorem C2_witness :
    (envC2b.init_ok = true ∧ envC2b.doc_count ≠ 0
        ∧ 0 < defaultSettings.RERANKER_TOP_K
        ∧ thresholdFiltered defaultSettings (envC2b.search (effectiveFilter none)) = []
        ∧ ((envC2b.search (effectiveFilter none)).take 3).filter
            (fun ds => keepChunk ds.1.page_content) ≠ [])
      ∧ ∃ ans kept srcs,
          run_knowledge_base_search defaultSettings envC2b "q" none
            = SearchResult.answered ans kept srcs
          ∧ 0 < kept.length ∧ kept.length ≤ 3 := by
  have hq9 : ¬((9 : ℚ) / 10 ≤ 1 - 3 / 10) := by norm_num
  have hq8 : ¬((8 : ℚ) / 10 ≤ 1 - 3 / 10) := by norm_num
  have hk1 : keepChunk "Far candidate one" = true := by decide
  have hk2 : keepChunk "Far candidate two" = true := by decide
  have hk3 : keepChunk "Far candidate three" = true := by decide
  have hthr : thresholdFiltered defaultSettings (envC2b.search (effectiveFilter none)) = [] := by
    simp [thresholdFiltered, envC2b, effectiveFilter, defaultSettings, hq9, hq8]
  have hfb : ((envC2b.search (effectiveFilter none)).take 3).filter
      (fun ds => keepChunk ds.1.page_content) ≠ [] := by
    simp [envC2b, effectiveFilter, hk1, hk2, hk3]
  exact ⟨⟨rfl, by decide, by decide, hthr, hfb⟩,
    C2_threshold_fallback_top3 defaultSettings envC2b "q" none rfl (by decide)
      (by decide) hthr hfb
      (fun scores hs => by simp [envC2b] at hs)⟩

theorem assembleResult_answered_inv (env : SearchEnv) (final : List RDoc)
    (ans : String) (kept : List RDoc) (srcs : List String)
    (h : assembleResult env final = SearchResult.answered ans kept srcs) :
    kept = final.filter (fun d => keepChunk d.page_content)
      ∧ srcs = dedupFirst (kept.map fun d => baseName (d.source.getD "Unknown")) := by
  simp only [assembleResult] at h
  by_cases hk : (final.filter fun d => keepChunk d.page_content).isEmpty = true
  · rw [if_pos hk] at h
    exact absurd h (by simp)
  · rw [if_neg hk] at h
    injection h with h1 h2 h3
    refine ⟨h2.symm, ?_⟩
    rw [← h3, h2]

theorem searchCore_answered_inv (s : Settings) (env : SearchEnv) (query : String)
    (flt : Option String) (ans : String) (kept : List RDoc) (srcs : List String)
    (h : searchCore s env query flt = SearchResult.answered ans kept srcs) :
    assembleResult env (rerankDocs s env query (searchSurvivors s (env.search flt)))
      = SearchResult.answered ans kept srcs := by
  simp only [searchCore] at h
  by_cases h1 : (env.search flt).isEmpty = true
  · rw [if_pos h1] at h
    exact absurd h (by simp)
  · rw [if_neg h1] at h
    by_cases h2 : (searchSurvivors s (env.search flt)).isEmpty = true
    · rw [if_pos h2] at h
      exact absurd h (by simp)
    · rw [if_neg h2] at h
      exact h

theorem run_answered_inv (s : Settings) (env : SearchEnv) (query : String)
    (st : Option String) (ans : String) (kept : List RDoc) (srcs : List String)
    (h : run_knowledge_base_search s env query st = SearchResult.answered ans kept srcs) :
    searchCore s env query (effectiveFilter st) = SearchResult.answered ans kept srcs := by
  simp only [run_knowledge_base_search] at h
  by_cases h1 : env.init_ok = true
  · rw [if_pos h1] at h
    by_cases h2 : env.doc_count = 0
    · rw [if_pos h2] at h
      exact absurd h (by simp)
    · rw [if_neg h2] at h
      exact h
  · rw [if_neg h1] at h
    by_cases h3 : env.robust_init_ok = true
    · rw [if_pos h3] at h
      exact h
    · rw [if_neg h3] at h
      exact absurd h (by simp)

/-- Claim C10: the sources list of every answered query is the list of
file base names of the used documents with duplicates removed and
first-occurrence order preserved; it contains no duplicates, so two
distinct source documents sharing a file name in different directories
collapse to a single indistinguishable entry. -/
theorem C10_sources_basename_dedup (s : Settings) (env : SearchEnv) (query : String)
    (st : Option String) (ans : String) (kept : List RDoc) (srcs : List String)
    (h : run_knowledge_base_search s env query st = SearchResult.answered ans kept srcs) :
    srcs = dedupFirst (kept.map fun d => baseName (d.source.getD "Unknown"))
      ∧ srcs.Nodup
      ∧ (∀ x, x ∈ srcs ↔ x ∈ kept.map fun d => baseName (d.source.getD "Unknown"))
      ∧ srcs.Sublist (kept.map fun d => baseName (d.source.getD "Unknown"))
      ∧ (∀ x, srcs.count x ≤ 1) := by
  obtain ⟨hkept, hsrcs⟩ := assembleResult_answered_inv env _ ans kept srcs
    (searchCore_answered_inv s env query (effectiveFilter st) ans kept srcs
      (run_answered_inv s env query st ans kept srcs h))
  refine ⟨hsrcs, ?_, ?_, ?_, ?_⟩
  · rw [hsrcs]
    exact dedupFirst_nodup _
  · intro x
    rw [hsrcs]
    exact mem_dedupFirst _ x
  · rw [hsrcs]
    exact dedupFirst_sublist _
  · intro x
    have hn : srcs.Nodup := by
      rw [hsrcs]
      exact dedupFirst_nodup _
    exact List.nodup_iff_count_le_one.mp hn x

def envC10 : SearchEnv :=
  { init_ok := true
    robust_init_ok := true
    doc_count := 2
    search := fun _ => [(⟨"Alpha text", some "/kb/internal/report.txt"⟩, 1 / 10),
                        (⟨"Beta text", some "/kb/external/report.txt"⟩, 1 / 10)]
    rerank := fun ps => some (ps.map fun _ => 1)
    llm_answer := some "ans" }

theorem C10_witness :
    run_knowledge_base_search defaultSettings envC10 "q" none
        = SearchResult.answered "ans"
            [⟨"Alpha text", some "/kb/internal/report.txt"⟩,
             ⟨"Beta text", some "/kb/external/report.txt"⟩]
            ["report.txt"]
      ∧ (["report.txt"] : List String).Nodup := by
  have hq : ((1 : ℚ) / 10 ≤ 1 - 3 / 10) := by norm_num
  have hk1 : keepChunk "Alpha text" = true := by decide
  have hk2 : keepChunk "Beta text" = true := by decide
  have hb1 : baseName "/kb/internal/report.txt" = "report.txt" := by decide
  have hb2 : baseName "/kb/external/report.txt" = "report.txt" := by decide
  have hrun : run_knowledge_base_search defaultSettings envC10 "q" none
      = SearchResult.answered "ans"
          [⟨"Alpha text", some "/kb/internal/report.txt"⟩,
           ⟨"Beta text", some "/kb/external/report.txt"⟩]
          ["report.txt"] := by
    norm_num [run_knowledge_base_search, searchCore, searchSurvivors, afterThreshold,
      thresholdFiltered, rerankDocs, assembleResult, envC10, effectiveFilter,
      defaultSettings, hq, hk1, hk2, List.insertionSort, List.orderedInsert,
      byScoreDesc, hb1, hb2, dedupFirst, insertIfAbsent]
  exact ⟨hrun,
    (C10_sources_basename_dedup defaultSettings envC10 "q" none "ans"
      [⟨"Alpha text", some "/kb/internal/report.txt"⟩,
       ⟨"Beta text", some "/kb/external/report.txt"⟩]
      ["report.txt"] hrun).2.1⟩

end NeuralStark
